import Mathlib

/-!
Verification of the DiscordChannelBot channel-lifecycle engine.

Shallow embedding of `src/channelbot/data.py`, `src/channelbot/db.py` and
`src/channelbot/bot.py`.  Python ints are `Int`, UTC timestamps (floats that
are always whole seconds in this code) are `Int`, Python `None`-able fields
are `Option`, raising code is `Except`/`Option`.  The `datetime` pair
`ts.timestamp()` / `utcfromtimestamp(ts)` is modelled as the identity pair on
epoch seconds (a UTC environment).
-/

namespace ChannelBot

/-- `ManagedChannelType` enum from `data.py`. -/
inductive ManagedChannelType where
  | SPAWNER
  | CHILD
  | IMPORT
deriving DecidableEq, Repr

/-- `ChannelConfig` attrs class from `data.py`.  `channel_number` and the
timestamp `hold_until` are Python ints/floats, hence `Int` here;
`spawner` is an optional `(guild_id, channel_id)` pair. -/
structure ChannelConfig where
  template : String := "#${no} Talk [${game}]"
  channel_type : ManagedChannelType := ManagedChannelType.SPAWNER
  spawner : Option (Int × Int) := none
  channel_number : Option Int := none
  hold_until : Option Int := none
deriving DecidableEq, Repr

/-- `ManagedChannel` attrs class from `data.py`. -/
structure ManagedChannel where
  guild_id : Int
  channel_id : Int
  config : ChannelConfig
deriving DecidableEq, Repr

/-- `ChannelConfig.is_expired` from `data.py`, with the current clock
`datetime.utcnow().timestamp()` passed in as `now`:
IMPORT is never expired; otherwise expired when `hold_until` is unset or
`now >= hold_until`. -/
def is_expired (config : ChannelConfig) (now : Int) : Bool :=
  if config.channel_type = ManagedChannelType.IMPORT then
    false
  else
    match config.hold_until with
    | none => true
    | some h => decide (now ≥ h)

/-- Seconds of `timedelta(days=days, hours=hours, minutes=minutes)`. -/
def timedeltaSeconds (days hours minutes : Int) : Int :=
  days * 86400 + hours * 3600 + minutes * 60

/-- The `hold_until` update performed by `ChannelBot.hold_channel`
(`bot.py`): when unset, `utcnow() + timedelta` is stored; when set, the prior
value is decoded with `utcfromtimestamp` and the delta added to it. -/
def hold_channel_update (config : ChannelConfig) (now days hours minutes : Int) :
    ChannelConfig :=
  let d := timedeltaSeconds days hours minutes
  match config.hold_until with
  | none => { config with hold_until := some (now + d) }
  | some prior => { config with hold_until := some (prior + d) }

/-- The `!cbhold` command path of `ChannelBot.hold_channel`: the update is
applied (and persisted) only when the record's type is CHILD; other types are
rejected with an error message and the record is untouched. -/
def hold_channel_command (channel : ManagedChannel) (now days hours minutes : Int) :
    Option ManagedChannel :=
  if channel.config.channel_type = ManagedChannelType.CHILD then
    some { channel with config := hold_channel_update channel.config now days hours minutes }
  else
    none

/-! ### `string.Template.substitute` and `ChannelConfig.make_channel_name`

`make_channel_name` calls `Template(self.template).substitute(no=..., game=...)`
and returns the raw template on `ValueError`/`KeyError`.  We embed CPython's
`string.Template` with its default delimiter `$` and identifier pattern
`[_a-zA-Z][_a-zA-Z0-9]*`: `$$` is an escaped `$`, `$name` and `${name}` are
substituted (a name missing from the mapping raises `KeyError`), and any other
occurrence of `$` raises `ValueError` ("Invalid placeholder").  Both failure
kinds are represented by `none`. -/

/-- First character of Python's default Template identifier pattern. -/
def identStart (c : Char) : Bool := c = '_' || c.isAlpha

/-- Continuation character of the identifier pattern. -/
def identChar (c : Char) : Bool := identStart c || c.isDigit

/-- Scanner state while embedding the regex scan of `Template.substitute`:
plain text, just behind a `$`, inside a `$name`, or inside a `${name}`
(identifier collected in reverse). -/
inductive SubMode where
  | text
  | dollar
  | named (acc : List Char)
  | braced (acc : List Char)

/-- The scan performed by `Template.substitute` over the character list, with
mapping `m`; `none` is a raised `ValueError` (invalid placeholder) or
`KeyError` (name missing from the mapping). -/
def substituteAux (m : String → Option String) : SubMode → List Char → Option (List Char)
  | SubMode.text, [] => some []
  | SubMode.text, c :: rest =>
    if c = '$' then substituteAux m SubMode.dollar rest
    else (substituteAux m SubMode.text rest).map (fun l => c :: l)
  | SubMode.dollar, [] => none
  | SubMode.dollar, c :: rest =>
    if c = '$' then (substituteAux m SubMode.text rest).map (fun l => '$' :: l)
    else if c = '{' then substituteAux m (SubMode.braced []) rest
    else if identStart c then substituteAux m (SubMode.named [c]) rest
    else none
  | SubMode.named acc, [] => (m (String.mk acc.reverse)).map (fun v => v.toList)
  | SubMode.named acc, c :: rest =>
    if identChar c then substituteAux m (SubMode.named (c :: acc)) rest
    else
      match m (String.mk acc.reverse) with
      | none => none
      | some v =>
        if c = '$' then
          (substituteAux m SubMode.dollar rest).map (fun l => v.toList ++ l)
        else
          (substituteAux m SubMode.text rest).map (fun l => v.toList ++ c :: l)
  | SubMode.braced _, [] => none
  | SubMode.braced acc, c :: rest =>
    if identChar c then substituteAux m (SubMode.braced (c :: acc)) rest
    else if c = '}' then
      match acc.reverse with
      | [] => none
      | c0 :: _ =>
        if identStart c0 then
          match m (String.mk acc.reverse) with
          | none => none
          | some v =>
            (substituteAux m SubMode.text rest).map (fun l => v.toList ++ l)
        else none
    else none

/-- `str()` applied by `Template.substitute` to the mapped value of `no`,
which is `self.channel_number`: an int or Python `None`. -/
def pyStr : Option Int → String
  | none => "None"
  | some k => toString k

/-- The keyword mapping `substitute(no=self.channel_number, game=game)`. -/
def templateMapping (no : Option Int) (game : String) : String → Option String :=
  fun name =>
    if name = "no" then some (pyStr no)
    else if name = "game" then some game
    else none

/-- `Template(template).substitute(no=channel_number, game=game)`:
`none` when the CPython call raises `ValueError` or `KeyError`. -/
def substitute (template : String) (no : Option Int) (game : String) : Option String :=
  (substituteAux (templateMapping no game) SubMode.text template.toList).map String.mk

/-- `ChannelConfig.make_channel_name` from `data.py`: the substitution result,
or the raw template when substitution raises. -/
def make_channel_name (config : ChannelConfig) (game : String) : String :=
  match substitute config.template config.channel_number game with
  | some s => s
  | none => config.template

/-! ### `cattr` serialization and the TinyDB-backed `ChannelDatabase`

`insert_channel` stores `unstructure(channel)` (a JSON document nesting the
config, with the enum unstructured to its string value) and `get_channel`
rebuilds the object with `structure(el, ManagedChannel)`.  TinyDB is a list of
documents in insertion order: `insert` appends, `get(cond)` returns the first
matching document, `remove(doc_ids=[...])` deletes that document, `search`
filters in order. -/

/-- The `.value` string `cattr` uses to unstructure `ManagedChannelType`. -/
def typeTag : ManagedChannelType → String
  | ManagedChannelType.SPAWNER => "SPAWNER"
  | ManagedChannelType.CHILD => "CHILD"
  | ManagedChannelType.IMPORT => "IMPORT"

/-- Inverse lookup performed when `cattr` structures the enum; an unknown
string raises, hence `none`. -/
def typeOfTag (s : String) : Option ManagedChannelType :=
  if s = "SPAWNER" then some ManagedChannelType.SPAWNER
  else if s = "CHILD" then some ManagedChannelType.CHILD
  else if s = "IMPORT" then some ManagedChannelType.IMPORT
  else none

/-- Unstructured form of `ChannelConfig` (the nested dict inside a stored
document). -/
structure ConfigDoc where
  template : String
  channel_type : String
  spawner : Option (Int × Int)
  channel_number : Option Int
  hold_until : Option Int
deriving DecidableEq, Repr

/-- Unstructured form of `ManagedChannel`: one TinyDB document. -/
structure ChannelDoc where
  guild_id : Int
  channel_id : Int
  config : ConfigDoc
deriving DecidableEq, Repr

/-- `cattr.unstructure` on a `ChannelConfig`. -/
def unstructureConfig (c : ChannelConfig) : ConfigDoc :=
  { template := c.template
    channel_type := typeTag c.channel_type
    spawner := c.spawner
    channel_number := c.channel_number
    hold_until := c.hold_until }

/-- `cattr.structure(_, ChannelConfig)`; fails on an unknown enum tag. -/
def structureConfig (d : ConfigDoc) : Option ChannelConfig :=
  (typeOfTag d.channel_type).map fun t =>
    { template := d.template
      channel_type := t
      spawner := d.spawner
      channel_number := d.channel_number
      hold_until := d.hold_until }

/-- `cattr.unstructure` on a `ManagedChannel`. -/
def unstructureChannel (ch : ManagedChannel) : ChannelDoc :=
  { guild_id := ch.guild_id, channel_id := ch.channel_id
    config := unstructureConfig ch.config }

/-- `cattr.structure(_, ManagedChannel)`. -/
def structureChannel (d : ChannelDoc) : Option ManagedChannel :=
  (structureConfig d.config).map fun cfg =>
    { guild_id := d.guild_id, channel_id := d.channel_id, config := cfg }

/-- The TinyDB query `(where("channel_id") == channel_id) & (where("guild_id")
== guild_id)` used by `get_channel` and `remove_channel`. -/
def identQuery (guild_id channel_id : Int) (d : ChannelDoc) : Bool :=
  d.channel_id = channel_id && d.guild_id = guild_id

/-- The database: the list of stored documents in insertion order. -/
abbrev ChannelDB := List ChannelDoc

/-- `ChannelDatabase.remove_channel`: remove the first document matching the
record's identity, or raise `KeyError` when none matches. -/
def remove_channel (db : ChannelDB) (channel : ManagedChannel) :
    Except (Int × Int) ChannelDB :=
  if db.any (identQuery channel.guild_id channel.channel_id) then
    Except.ok (db.eraseP (identQuery channel.guild_id channel.channel_id))
  else
    Except.error (channel.guild_id, channel.channel_id)

/-- `ChannelDatabase.insert_channel`: try `remove_channel` (swallowing
`KeyError`), then append the unstructured document. -/
def insert_channel (db : ChannelDB) (channel : ManagedChannel) : ChannelDB :=
  (match remove_channel db channel with
   | Except.ok db2 => db2
   | Except.error _ => db) ++ [unstructureChannel channel]

/-- `ChannelDatabase.get_channel`: first matching document, structured back
into a `ManagedChannel`; `none` covers both the `KeyError` on a missing
identity and a failed `structure` call. -/
def get_channel (db : ChannelDB) (guild_id channel_id : Int) :
    Option ManagedChannel :=
  (db.find? (identQuery guild_id channel_id)).bind structureChannel

/-- Sort key comparison of `get_children`'s `sorted(..., key=lambda el:
el.config.channel_number)`.  Every child the engine creates carries
`some n`; the `getD` default only keeps the comparison total. -/
def channelNumberLe (a b : Option Int) : Bool :=
  a.getD 0 ≤ b.getD 0

/-- Stable insertion into a list kept ascending by `channelNumberLe` on
`config.channel_number`. -/
def insertByNumber (a : ManagedChannel) : List ManagedChannel → List ManagedChannel
  | [] => [a]
  | b :: bs =>
    if channelNumberLe a.config.channel_number b.config.channel_number then
      a :: b :: bs
    else
      b :: insertByNumber a bs

/-- The stable ascending sort `sorted(children, key=lambda el:
el.config.channel_number)`. -/
def sortByNumber (l : List ManagedChannel) : List ManagedChannel :=
  l.foldr insertByNumber []

/-- Store invariant: at most one document per `(guild_id, channel_id)`
identity.  It holds of the empty store and every state reachable through
`insert_channel`/`remove_channel` (claims about "every store state" are read
over these reachable, well-formed states). -/
def dbWellFormed (db : ChannelDB) : Prop :=
  ∀ g c : Int, db.countP (identQuery g c) ≤ 1

/-- `ChannelDatabase.get_children`: documents of the spawner's guild,
structured, kept when `config.spawner` is set with second component equal to
the spawner's `channel_id` (the Python truthiness test plus
`c.config.spawner[1] == spawner.channel_id`), sorted ascending by
`channel_number`.  Documents whose enum tag fails to structure cannot be
produced by this model's writes and are dropped. -/
def get_children (db : ChannelDB) (spawner : ManagedChannel) :
    List ManagedChannel :=
  let all_raw := db.filter (fun d => d.guild_id = spawner.guild_id)
  let all := all_raw.filterMap structureChannel
  let children := all.filter fun c =>
    match c.config.spawner with
    | some p => p.2 = spawner.channel_id
    | none => false
  sortByNumber children

/-! ### The spawn numbering algorithm (`spawn_channel`, `bot.py` 35-45) -/

/-- The candidate list `range(1, len(channel_numbers) + 1)` as integers. -/
def candidateNumbers (n : Nat) : List Int :=
  (List.range n).map fun (j : Nat) => (j : Int) + 1

/-- The gap-filling loop of `spawn_channel`: `channel_number` starts at
`len(channel_numbers) + 1` and the first `i` in `range(1, len + 1)` not in
the list wins. -/
def computeChannelNumber (channel_numbers : List (Option Int)) : Int :=
  match (candidateNumbers channel_numbers.length).find?
      (fun i => !(channel_numbers.contains (some i))) with
  | some i => i
  | none => (channel_numbers.length : Int) + 1

/-- The number `spawn_channel` computes for a new child of `spawner` given
database `db`. -/
def spawnChannelNumber (spawner : ManagedChannel) (db : ChannelDB) : Int :=
  computeChannelNumber ((get_children db spawner).map fun el =>
    el.config.channel_number)

/-- The `ManagedChannel` record `spawn_channel` persists: the spawner's config
deep-copied via `structure(unstructure(...))`, retagged CHILD, pointed back at
the spawner, and numbered by the gap-filling loop; the identity is the
guild and the platform id of the cloned voice channel. -/
def spawn_channel_record (spawner : ManagedChannel) (db : ChannelDB)
    (new_channel_id : Int) : ManagedChannel :=
  { guild_id := spawner.guild_id
    channel_id := new_channel_id
    config := { spawner.config with
      channel_type := ManagedChannelType.CHILD
      spawner := some (spawner.guild_id, spawner.channel_id)
      channel_number := some (spawnChannelNumber spawner db) } }

/-! ### Game status (`game_status_from_members` and the spawn-path loop)

A discord activity is modelled by the two tests the code performs on it:
`activity.type` (`playing`, `streaming`, or anything else) and whether the
object is an instance of the `Game` class (`isGame`; every `Game` has type
`playing`, but a generic playing activity is not a `Game`), plus its name. -/

/-- The values of `discord.ActivityType` distinguished by the code. -/
inductive ActivityKind where
  | playing
  | streaming
  | other
deriving DecidableEq, Repr

/-- One activity of a member, as far as the code inspects it. -/
structure Activity where
  kind : ActivityKind
  isGame : Bool
  name : String
deriving DecidableEq, Repr

/-- A voice-channel occupant: only `member.activities` is read. -/
structure Member where
  activities : List Activity
deriving DecidableEq, Repr

/-- The vote one member contributes inside `game_status_from_members`: the
name of the first activity of type playing or streaming (the loop `break`s),
else the `for`-`else` vote `"General"`. -/
def memberVote (m : Member) : String :=
  match m.activities.find? (fun a =>
      a.kind = ActivityKind.playing || a.kind = ActivityKind.streaming) with
  | some a => a.name
  | none => "General"

/-- `Counter` update `c[name] += 1`: an association list in first-encounter
(insertion) order, as a Python dict iterates. -/
def tallyAdd (t : List (String × Nat)) (s : String) : List (String × Nat) :=
  if t.any (fun p => p.1 = s) then
    t.map fun p => if p.1 = s then (p.1, p.2 + 1) else p
  else
    t ++ [(s, 1)]

/-- `Counter.most_common(1)`: the highest count, ties broken by
first-encounter order (documented CPython behaviour); `none` on an empty
counter. -/
def mostCommon1 (t : List (String × Nat)) : Option (String × Nat) :=
  t.foldl (fun acc p =>
    match acc with
    | none => some p
    | some q => if p.2 > q.2 then some p else some q) none

/-- `game_status_from_members` from `bot.py`: majority vote with
first-encounter tie-break; `"General"` for an empty member list. -/
def game_status_from_members (members : List Member) : String :=
  let tally := members.foldl (fun t m => tallyAdd t (memberVote m)) []
  match mostCommon1 tally with
  | some (name, _) => name
  | none => "General"

/-- The game-status loop inside `spawn_channel` (`bot.py` 47-52): it looks at
`members[0]` only (the `FIXME: Use all members` comment marks this), keeps
activities that are `Game` instances, and — having no `break` — ends with the
name of the *last* such activity, defaulting to `"General"`.  The member list
is non-empty at both call sites (`channel.members` on join; reconciliation
checks `len(voice_channel.members) > 0`), so the `members[0]` IndexError is
unreachable and the empty case is given the loop's initial value. -/
def spawnGameStatus (members : List Member) : String :=
  match members with
  | [] => "General"
  | m0 :: _ =>
    m0.activities.foldl (fun status a => if a.isGame then a.name else status)
      "General"

/-! ### Per-record transitions: leave events and the reconciliation pass

The platform calls that can fail are abstracted by their outcome.  The store
and name effects of one record's processing are recorded explicitly; an
uncaught exception is an `Except.error`. -/

/-- Outcome of one platform call (`delete`/`edit`/`clone`/`move`):
success, a `discord.NotFound`, or any other `HTTPException`. -/
inductive POutcome where
  | ok
  | notFound
  | failed
deriving DecidableEq, Repr

/-- Everything about one record's situation that the two transition paths
branch on, platform-call outcomes included. -/
structure RecordEnv where
  guildExists : Bool
  channelExists : Bool
  channel_type : ManagedChannelType
  membersEmpty : Bool
  expired : Bool
  deleteOutcome : POutcome
  renameNeeded : Bool
  renameOutcome : POutcome
  spawnOutcome : POutcome
deriving DecidableEq, Repr

/-- Store/platform effects of processing one record. -/
structure Effects where
  recordRemoved : Bool := false
  resourceDeleted : Bool := false
  renamed : Bool := false
  spawned : Bool := false
deriving DecidableEq, Repr

/-- The guarded body of `ChannelBot.on_channel_leave` for a record already
known to the store (the `KeyError` early return is the caller's concern):
non-CHILD types return untouched; with members present the name is refreshed;
an empty unexpired child returns untouched; an empty expired child gets
`channel.delete()` under `suppress(NotFound)` followed unconditionally by
`db.remove_channel` — a non-NotFound delete failure propagates before the
removal. -/
def on_channel_leave_step (e : RecordEnv) : Except Unit Effects :=
  if e.channel_type ≠ ManagedChannelType.CHILD then
    Except.ok {}
  else if ¬ e.membersEmpty then
    match e.renameOutcome with
    | POutcome.ok => Except.ok { renamed := e.renameNeeded }
    | _ => if e.renameNeeded then Except.error () else Except.ok {}
  else if ¬ e.expired then
    Except.ok {}
  else
    match e.deleteOutcome with
    | POutcome.ok => Except.ok { resourceDeleted := true, recordRemoved := true }
    | POutcome.notFound => Except.ok { recordRemoved := true }
    | POutcome.failed => Except.error ()

/-- One iteration of the `for` loop in `ChannelBot.update_task`: a missing
guild or missing voice channel drops the record (`suppress(KeyError)`);
an empty expired CHILD runs `suppress(NotFound, KeyError): delete; remove` —
on a `NotFound` the `with` block is aborted, so the record is *not* removed;
a non-NotFound delete failure propagates; otherwise CHILD and IMPORT records
are renamed via `update_channel_name` (whose `edit` call is unguarded), and an
occupied SPAWNER spawns (its platform calls unguarded). -/
def update_task_step (e : RecordEnv) : Except Unit Effects :=
  if ¬ e.guildExists then
    Except.ok { recordRemoved := true }
  else if ¬ e.channelExists then
    Except.ok { recordRemoved := true }
  else if e.channel_type = ManagedChannelType.CHILD ∧ e.membersEmpty ∧ e.expired then
    match e.deleteOutcome with
    | POutcome.ok => Except.ok { resourceDeleted := true, recordRemoved := true }
    | POutcome.notFound => Except.ok {}
    | POutcome.failed => Except.error ()
  else if e.channel_type = ManagedChannelType.CHILD ∨
      e.channel_type = ManagedChannelType.IMPORT then
    if e.renameNeeded then
      match e.renameOutcome with
      | POutcome.ok => Except.ok { renamed := true }
      | _ => Except.error ()
    else
      Except.ok {}
  else
    if ¬ e.membersEmpty then
      match e.spawnOutcome with
      | POutcome.ok => Except.ok { spawned := true }
      | _ => Except.error ()
    else
      Except.ok {}

/-- The whole `update_task` pass over `scan()`: records processed in order;
an uncaught exception from one record's processing aborts the loop (there is
no per-record `try`), leaving later records unprocessed.  Returns the effects
of the records actually processed and whether the pass died. -/
def update_task_pass : List RecordEnv → List Effects × Bool
  | [] => ([], false)
  | e :: rest =>
    match update_task_step e with
    | Except.ok eff =>
      let (effs, aborted) := update_task_pass rest
      (eff :: effs, aborted)
    | Except.error _ => ([], true)

/-! ### The lock factory (`@lru_cache(maxsize=64) def lock(guild_id, channel_id)`)

`functools.lru_cache(maxsize=64)` keyed by `(guild_id, channel_id)`: a hit
returns the cached `asyncio.Lock` and moves the key to most-recently-used; a
miss creates a fresh lock, inserts it, and evicts the least-recently-used
entry beyond capacity 64.  Lock objects are numbered by creation order. -/

/-- LRU cache state: entries most-recent first, plus the id of the next lock
object to be created. -/
structure LockCache where
  entries : List ((Int × Int) × Nat)
  nextId : Nat
deriving DecidableEq, Repr

/-- The empty cache the process starts with. -/
def initLockCache : LockCache := { entries := [], nextId := 0 }

/-- One call to `lock(guild_id, channel_id)`: returns the new cache state and
the identity of the `asyncio.Lock` object handed to the caller. -/
def lockCall (s : LockCache) (k : Int × Int) : LockCache × Nat :=
  match s.entries.find? (fun e => e.1 = k) with
  | some e =>
    ({ s with entries := (k, e.2) :: s.entries.eraseP (fun e2 => e2.1 = k) },
     e.2)
  | none =>
    ({ entries := ((k, s.nextId) :: s.entries).take 64, nextId := s.nextId + 1 },
     s.nextId)

/-- Fold a sequence of `lock` calls for other identities, as issued by event
handlers running between two suspension points. -/
def lockCalls (s : LockCache) (ks : List (Int × Int)) : LockCache :=
  ks.foldl (fun st k => (lockCall st k).1) s

/-! ### Two transitions racing on one identity

A minimal cooperative-scheduling model of two tasks (the live event path `A`
and the reconciliation path `B`) each guarding a store mutation for the same
resource identity with the lock object its own `lock(...)` call returned:
program counter 0 = about to `acquire`, 1 = about to mutate the store,
2 = about to `release`, 3 = done.  A task is inside its critical section at
counters 1 and 2.  An `acquire` of a lock id already held blocks (the task
simply does not advance), which is exactly `async with lock(...)` under
asyncio's run-to-next-await interleaving. -/

/-- Which task the scheduler runs next. -/
inductive TaskId where
  | A
  | B
deriving DecidableEq, Repr

/-- Scheduler state: both program counters and the set of held lock ids. -/
structure SchedState where
  pcA : Nat
  pcB : Nat
  held : List Nat
deriving DecidableEq, Repr

/-- Both tasks poised to acquire, no lock held. -/
def initSched : SchedState := { pcA := 0, pcB := 0, held := [] }

/-- Advance one task by one step; a blocked `acquire` and a finished task
leave the state unchanged. -/
def stepTask (la lb : Nat) (s : SchedState) (t : TaskId) : SchedState :=
  match t with
  | TaskId.A =>
    match s.pcA with
    | 0 => if la ∈ s.held then s else { s with pcA := 1, held := la :: s.held }
    | 1 => { s with pcA := 2 }
    | 2 => { s with pcA := 3, held := s.held.erase la }
    | _ => s
  | TaskId.B =>
    match s.pcB with
    | 0 => if lb ∈ s.held then s else { s with pcB := 1, held := lb :: s.held }
    | 1 => { s with pcB := 2 }
    | 2 => { s with pcB := 3, held := s.held.erase lb }
    | _ => s

/-- Is a program counter inside the critical section? -/
def inCS (pc : Nat) : Bool := pc = 1 || pc = 2

/-- Are both tasks inside their critical sections at once? -/
def bothInCS (s : SchedState) : Bool := inCS s.pcA && inCS s.pcB

/-- Run a schedule from a state, reporting whether the two critical sections
ever overlap. -/
def overlapRun (la lb : Nat) (s : SchedState) : List TaskId → Bool
  | [] => bothInCS s
  | t :: ts => bothInCS s || overlapRun la lb (stepTask la lb s t) ts

/-- The 64 distinct other identities (guild 2, channels 0..63) whose lock
calls run between task A's `lock(...)` call and task B's. -/
def sixtyFourOtherKeys : List (Int × Int) :=
  (List.range 64).map fun (i : Nat) => ((2 : Int), (i : Int))

/-- Invariant of the two-task system when both guard with the *same* lock
object `l`: the lock is held exactly while one task is in its critical
section, and the critical sections never overlap. -/
def lockInv (l : Nat) (s : SchedState) : Prop :=
  s.held = (if inCS s.pcA || inCS s.pcB then [l] else []) ∧
  (inCS s.pcA && inCS s.pcB) = false ∧ s.pcA ≤ 3 ∧ s.pcB ≤ 3

/-! ### Concrete sample data used by witnesses and counterexamples -/

/-- A CHILD config holding until time 50. -/
def cfgChildHeld : ChannelConfig :=
  { template := "t"
    channel_type := ManagedChannelType.CHILD
    spawner := some (1, 2)
    channel_number := some 1
    hold_until := some 50 }

/-- An IMPORT config whose (meaningless) hold passed at time 50. -/
def cfgImportHeld : ChannelConfig :=
  { cfgChildHeld with channel_type := ManagedChannelType.IMPORT
                      spawner := none
                      channel_number := some 0 }

/-- A CHILD config with a given template and number 3. -/
def cfgTemplate (t : String) : ChannelConfig :=
  { template := t
    channel_type := ManagedChannelType.CHILD
    spawner := some (1, 2)
    channel_number := some 3
    hold_until := none }

/-- A CHILD record of guild 1 with a given `hold_until`. -/
def chChildHold (h : Option Int) : ManagedChannel :=
  { guild_id := 1
    channel_id := 2
    config := { template := "t"
                channel_type := ManagedChannelType.CHILD
                spawner := some (1, 9)
                channel_number := some 1
                hold_until := h } }

/-- A sample spawner record: guild 5, channel 3. -/
def exSpawner : ManagedChannel :=
  { guild_id := 5
    channel_id := 3
    config := { template := "#${no} Talk [${game}]"
                channel_type := ManagedChannelType.SPAWNER
                spawner := none
                channel_number := none
                hold_until := none } }

/-- A sample child of `exSpawner` with number `n` living in channel `cid`. -/
def exChild (n cid : Int) : ManagedChannel :=
  { guild_id := 5
    channel_id := cid
    config := { template := "#${no} Talk [${game}]"
                channel_type := ManagedChannelType.CHILD
                spawner := some (5, 3)
                channel_number := some n
                hold_until := none } }

/-- Database holding children numbered 1 and 3. -/
def exDb13 : ChannelDB :=
  insert_channel (insert_channel [] (exChild 1 10)) (exChild 3 11)

/-- Database holding children numbered 1 and 2. -/
def exDb12 : ChannelDB :=
  insert_channel (insert_channel [] (exChild 1 10)) (exChild 2 11)

/-- A member playing a `Game` named `s`. -/
def playingMember (s : String) : Member :=
  { activities := [{ kind := ActivityKind.playing, isGame := true, name := s }] }

/-- Record situation: an empty, expired CHILD whose platform delete reports
the channel already gone (`NotFound`). -/
def envDestroyNotFound : RecordEnv :=
  { guildExists := true
    channelExists := true
    channel_type := ManagedChannelType.CHILD
    membersEmpty := true
    expired := true
    deleteOutcome := POutcome.notFound
    renameNeeded := false
    renameOutcome := POutcome.ok
    spawnOutcome := POutcome.ok }

/-- Record situation: an occupied IMPORT whose pending rename fails with a
platform error. -/
def envRenameFail : RecordEnv :=
  { envDestroyNotFound with channel_type := ManagedChannelType.IMPORT
                            membersEmpty := false
                            expired := false
                            renameNeeded := true
                            renameOutcome := POutcome.failed }

/-- Record situation: an occupied IMPORT needing no rename — fully benign. -/
def envBenign : RecordEnv :=
  { envRenameFail with renameNeeded := false
                       renameOutcome := POutcome.ok }

/-! ## Theorems -/

/-- **C4**: `is_expired(config, now)` is false whenever `channel_type` is
IMPORT, regardless of `hold_until`; for any other type it is true exactly
when `hold_until` is unset or `now >= hold_until`. -/
theorem C4_is_expired_gate (config : ChannelConfig) (now : Int) :
    (config.channel_type = ManagedChannelType.IMPORT →
      is_expired config now = false) ∧
    (config.channel_type ≠ ManagedChannelType.IMPORT →
      (is_expired config now = true ↔
        config.hold_until = none ∨
          ∃ h, config.hold_until = some h ∧ now ≥ h)) := by
  constructor
  · intro h
    simp [is_expired, h]
  · intro h
    cases hh : config.hold_until with
    | none => simp [is_expired, h, hh]
    | some t =>
      simp only [is_expired, if_neg h, hh]
      constructor
      · intro ht
        exact Or.inr ⟨t, rfl, by simpa using ht⟩
      · rintro (hc | ⟨u, hu, hnu⟩)
        · exact absurd hc (by simp)
        · cases hu
          simpa using hnu

/-- Witness for C4 at concrete inputs: an IMPORT whose hold has long passed
is still not expired; a CHILD before its `hold_until` is not expired and one
at it is. -/
theorem C4_is_expired_gate_witness :
    is_expired cfgImportHeld 100 = false ∧ is_expired cfgChildHeld 100 = true :=
  ⟨(C4_is_expired_gate _ 100).1 rfl,
   ((C4_is_expired_gate _ 100).2 (by decide)).mpr (Or.inr ⟨50, rfl, by decide⟩)⟩

/-- **C5**: on a CHILD record, `!cbhold` sets `hold_until` to `now + d` when
it was unset, and to the prior `hold_until + d` when it was already set, with
`d` the parsed `DD:HH:MM` duration in seconds — extensions accumulate. -/
theorem C5_hold_accumulates (channel : ManagedChannel) (now days hours minutes : Int)
    (hchild : channel.config.channel_type = ManagedChannelType.CHILD) :
    (channel.config.hold_until = none →
      hold_channel_command channel now days hours minutes =
        some { channel with config := { channel.config with
          hold_until := some (now + timedeltaSeconds days hours minutes) } }) ∧
    (∀ p, channel.config.hold_until = some p →
      hold_channel_command channel now days hours minutes =
        some { channel with config := { channel.config with
          hold_until := some (p + timedeltaSeconds days hours minutes) } }) := by
  constructor
  · intro h
    simp [hold_channel_command, hchild, hold_channel_update, h]
  · intro p h
    simp [hold_channel_command, hchild, hold_channel_update, h]

/-- Witness for C5: a one-hour hold (`0:01:00`) applied twice to a CHILD with
no prior hold yields `now + 7200`, not `now + 3600`; the first application
(via the theorem) yields `now + 3600` and the second accumulates from it. -/
theorem C5_hold_accumulates_witness :
    hold_channel_command (chChildHold none) 1000 0 1 0 =
      some (chChildHold (some 4600)) ∧
    hold_channel_command (chChildHold (some 4600)) 2500 0 1 0 =
      some (chChildHold (some 8200)) := by
  constructor
  · have h := (C5_hold_accumulates (chChildHold none) 1000 0 1 0 rfl).1 rfl
    rw [h]
    decide
  · have h := (C5_hold_accumulates (chChildHold (some 4600)) 2500 0 1 0 rfl).2
      4600 rfl
    rw [h]
    decide

/-- **C3**: `make_channel_name` is total — it returns the substituted string
when CPython's `Template.substitute` succeeds and the raw template string
unchanged when substitution raises (`ValueError` on malformed syntax,
`KeyError` on an unknown placeholder); it never fails. -/
theorem C3_make_channel_name_total (config : ChannelConfig) (game : String) :
    (substitute config.template config.channel_number game = none →
      make_channel_name config game = config.template) ∧
    (∀ s, substitute config.template config.channel_number game = some s →
      make_channel_name config game = s) := by
  constructor
  · intro h
    simp [make_channel_name, h]
  · intro s h
    simp [make_channel_name, h]

/-- Witness for C3: the malformed template `"#$ Talk"` (bare `$` raises
`ValueError`) renders to itself, as does `"${foo}"` (unknown placeholder,
`KeyError`); the default template renders normally. -/
theorem C3_make_channel_name_total_witness :
    make_channel_name (cfgTemplate "#$ Talk") "Chess" = "#$ Talk" ∧
    make_channel_name (cfgTemplate "${foo}") "Chess" = "${foo}" ∧
    make_channel_name (cfgTemplate "#${no} Talk [${game}]") "Chess" =
      "#3 Talk [Chess]" :=
  ⟨(C3_make_channel_name_total _ "Chess").1 (by decide),
   (C3_make_channel_name_total _ "Chess").1 (by decide),
   (C3_make_channel_name_total _ "Chess").2 _ (by decide)⟩

theorem candidateNumbers_length (n : Nat) : (candidateNumbers n).length = n := by
  simp only [candidateNumbers, List.length_map, List.length_range]

theorem mem_candidateNumbers {n : Nat} {i : Int} :
    i ∈ candidateNumbers n ↔ 1 ≤ i ∧ i ≤ (n : Int) := by
  unfold candidateNumbers
  rw [List.mem_map]
  constructor
  · rintro ⟨j, hj, rfl⟩
    rw [List.mem_range] at hj
    constructor
    · omega
    · omega
  · rintro ⟨h1, h2⟩
    refine ⟨(i - 1).toNat, ?_, ?_⟩
    · rw [List.mem_range]
      omega
    · omega

theorem candidateNumbers_getElem (n k : Nat) (h : k < (candidateNumbers n).length) :
    (candidateNumbers n)[k] = (k : Int) + 1 := by
  simp only [candidateNumbers, List.getElem_map, List.getElem_range]

/-- Correctness of the gap-filling loop: its result is at least 1, absent
from the input list, and below every other absent positive integer. -/
theorem computeChannelNumber_spec (L : List (Option Int)) :
    1 ≤ computeChannelNumber L ∧ some (computeChannelNumber L) ∉ L ∧
    ∀ m : Int, 1 ≤ m → some m ∉ L → computeChannelNumber L ≤ m := by
  cases hf : (candidateNumbers L.length).find? (fun i => !(L.contains (some i))) with
  | some i =>
    have hval : computeChannelNumber L = i := by
      unfold computeChannelNumber
      rw [hf]
    rw [hval]
    rw [List.find?_eq_some_iff_getElem] at hf
    obtain ⟨hpi, j, hj, hgetj, hbefore⟩ := hf
    have hiNotMem : some i ∉ L := by simpa using hpi
    have hij : (j : Int) + 1 = i := by
      rw [candidateNumbers_getElem L.length j hj] at hgetj
      exact hgetj
    have hjlen : j < L.length := by
      rw [candidateNumbers_length] at hj
      exact hj
    refine ⟨by omega, hiNotMem, ?_⟩
    intro m hm hmnot
    by_contra hlt
    push_neg at hlt
    have hk : (m - 1).toNat < j := by omega
    have hklen : (m - 1).toNat < (candidateNumbers L.length).length := by
      rw [candidateNumbers_length]
      omega
    have hcontains := hbefore (m - 1).toNat hk
    rw [candidateNumbers_getElem L.length _ hklen] at hcontains
    have : some (((m - 1).toNat : Int) + 1) ∈ L := by simpa using hcontains
    have hmm : (((m - 1).toNat : Int) + 1) = m := by omega
    rw [hmm] at this
    exact hmnot this
  | none =>
    have hval : computeChannelNumber L = (L.length : Int) + 1 := by
      unfold computeChannelNumber
      rw [hf]
    rw [hval]
    rw [List.find?_eq_none] at hf
    have hall : ∀ x : Int, 1 ≤ x → x ≤ (L.length : Int) → some x ∈ L := by
      intro x h1 h2
      have hx := hf x (mem_candidateNumbers.mpr ⟨h1, h2⟩)
      simpa using hx
    refine ⟨by omega, ?_, ?_⟩
    · intro hmem
      have hinj : Function.Injective (fun j : Nat => (j : Int) + 1) := by
        intro a b hab
        simpa using hab
      have hnodup : ((candidateNumbers L.length).map some).Nodup := by
        refine List.Nodup.map (fun a b hab => by simpa using hab) ?_
        exact (List.nodup_range _).map hinj
      have hsubset : ((candidateNumbers L.length).map some) ⊆ L := by
        intro x hx
        rw [List.mem_map] at hx
        obtain ⟨i, hi, rfl⟩ := hx
        obtain ⟨h1, h2⟩ := mem_candidateNumbers.mp hi
        exact hall i h1 h2
      have hperm : ((candidateNumbers L.length).map some).Perm L :=
        (List.subperm_of_subset hnodup hsubset).perm_of_length_le
          (by simp [candidateNumbers_length])
      have hin : some ((L.length : Int) + 1) ∈ (candidateNumbers L.length).map some :=
        hperm.mem_iff.mpr hmem
      rw [List.mem_map] at hin
      obtain ⟨i, hi, heq⟩ := hin
      obtain ⟨h1, h2⟩ := mem_candidateNumbers.mp hi
      have : i = (L.length : Int) + 1 := by simpa using heq
      omega
    · intro m hm hmnot
      by_contra h
      push_neg at h
      exact hmnot (hall m hm (by omega))

/-- **C1**: the record persisted by `spawn_channel` carries, as its
`channel_number`, the smallest positive integer not present among the
`channel_number`s of the spawner's existing children: it is positive, absent
from the sibling set, and no smaller absent positive integer exists. -/
theorem C1_spawn_assigns_smallest_gap (spawner : ManagedChannel) (db : ChannelDB)
    (new_channel_id : Int) :
    (spawn_channel_record spawner db new_channel_id).config.channel_number =
      some (spawnChannelNumber spawner db) ∧
    1 ≤ spawnChannelNumber spawner db ∧
    some (spawnChannelNumber spawner db) ∉
      ((get_children db spawner).map fun el => el.config.channel_number) ∧
    ∀ m : Int, 1 ≤ m →
      some m ∉ ((get_children db spawner).map fun el => el.config.channel_number) →
      spawnChannelNumber spawner db ≤ m := by
  have h := computeChannelNumber_spec
    ((get_children db spawner).map fun el => el.config.channel_number)
  exact ⟨rfl, h.1, h.2.1, h.2.2⟩

/-- Witness for C1: siblings {1,3} get 2; an empty sibling set gets 1; after
the child numbered 2 of {1,2} is destroyed through `remove_channel`, the next
spawn gets 2 again (gap reuse), not 3 — and, via the theorem, 2 is minimal
for {1,3}. -/
theorem C1_spawn_assigns_smallest_gap_witness :
    spawnChannelNumber exSpawner exDb13 = 2 ∧
    spawnChannelNumber exSpawner ([] : ChannelDB) = 1 ∧
    spawnChannelNumber exSpawner exDb12 = 3 ∧
    (match remove_channel exDb12 (exChild 2 11) with
     | Except.ok db2 => spawnChannelNumber exSpawner db2
     | Except.error _ => 0) = 2 ∧
    spawnChannelNumber exSpawner exDb13 ≤ 2 :=
  ⟨by decide, by decide, by decide, by decide,
   (C1_spawn_assigns_smallest_gap exSpawner exDb13 99).2.2.2 2 (by decide)
     (by decide)⟩

theorem countP_eraseP_self {α : Type} (p : α → Bool) (l : List α)
    (h : 0 < l.countP p) : (l.eraseP p).countP p = l.countP p - 1 := by
  induction l with
  | nil => simp at h
  | cons a t ih =>
    by_cases hpa : p a
    · simp [List.eraseP_cons, hpa, List.countP_cons]
    · have ht : 0 < t.countP p := by
        simpa [List.countP_cons, hpa] using h
      simp only [List.eraseP_cons, hpa, cond_false, List.countP_cons, if_neg hpa,
        ih ht]
      omega

/-- `insert_channel` always ends in the fresh document appended to a rest of
the store free of that identity (the remove-then-insert shape). -/
theorem insert_channel_split (db : ChannelDB) (channel : ManagedChannel)
    (hwf : dbWellFormed db) :
    ∃ base : ChannelDB,
      insert_channel db channel = base ++ [unstructureChannel channel] ∧
      base.countP (identQuery channel.guild_id channel.channel_id) = 0 ∧
      base.Sublist db := by
  unfold insert_channel remove_channel
  by_cases hany : db.any (identQuery channel.guild_id channel.channel_id)
  · rw [if_pos hany]
    refine ⟨db.eraseP (identQuery channel.guild_id channel.channel_id), rfl, ?_,
      List.eraseP_sublist db⟩
    have hpos : 0 < db.countP (identQuery channel.guild_id channel.channel_id) := by
      rw [List.countP_pos_iff]
      obtain ⟨x, hx, hqx⟩ := List.any_eq_true.mp hany
      exact ⟨x, hx, hqx⟩
    have hle := hwf channel.guild_id channel.channel_id
    rw [countP_eraseP_self _ _ hpos]
    omega
  · rw [if_neg hany]
    refine ⟨db, rfl, ?_, List.Sublist.refl db⟩
    rw [List.countP_eq_zero]
    intro a ha
    rw [List.any_eq_true] at hany
    intro hqa
    exact hany ⟨a, ha, hqa⟩

theorem identQuery_unstructure_self (channel : ManagedChannel) :
    identQuery channel.guild_id channel.channel_id
      (unstructureChannel channel) = true := by
  simp [identQuery, unstructureChannel]

/-- **C6**: `insert_channel` upserts by identity on a well-formed store:
afterwards exactly one document carries the record's `(guild_id,
channel_id)`, that document is the newly unstructured record (replace, not
merge), the operation is total (it never fails, tracked identity or not),
and well-formedness is preserved. -/
theorem C6_insert_upserts (db : ChannelDB) (channel : ManagedChannel)
    (hwf : dbWellFormed db) :
    (insert_channel db channel).countP
        (identQuery channel.guild_id channel.channel_id) = 1 ∧
    (∀ d ∈ insert_channel db channel,
        identQuery channel.guild_id channel.channel_id d = true →
        d = unstructureChannel channel) ∧
    dbWellFormed (insert_channel db channel) := by
  obtain ⟨base, heq, hzero, hsub⟩ := insert_channel_split db channel hwf
  rw [heq]
  refine ⟨?_, ?_, ?_⟩
  · rw [List.countP_append, hzero]
    simp [identQuery_unstructure_self]
  · intro d hd hqd
    rcases List.mem_append.mp hd with hdl | hdr
    · exact absurd hqd (by simp [List.countP_eq_zero.mp hzero d hdl])
    · simpa using hdr
  · intro g c
    rw [List.countP_append]
    by_cases hdoc : identQuery g c (unstructureChannel channel) = true
    · have hgc : channel.channel_id = c ∧ channel.guild_id = g := by
        simpa [identQuery, unstructureChannel] using hdoc
      obtain ⟨rfl, rfl⟩ := hgc
      rw [hzero]
      simp [identQuery_unstructure_self]
    · have h1 : base.countP (identQuery g c) ≤ db.countP (identQuery g c) :=
        hsub.countP_le _
      have h2 : ([unstructureChannel channel]).countP (identQuery g c) = 0 := by
        rw [List.countP_eq_zero]
        intro a ha
        rw [List.mem_singleton] at ha
        subst ha
        simpa using hdoc
      have h3 := hwf g c
      omega

/-- Witness for C6: inserting a child into the empty store yields one
document for its identity; re-inserting a different record with the same
identity (guild 5, channel 10) still yields exactly one document, and a get
returns the replacement, not the original. -/
theorem C6_insert_upserts_witness :
    (insert_channel [] (exChild 1 10)).countP
        (identQuery (exChild 1 10).guild_id (exChild 1 10).channel_id) = 1 ∧
    (insert_channel (insert_channel [] (exChild 1 10)) (exChild 9 10)).countP
        (identQuery (exChild 9 10).guild_id (exChild 9 10).channel_id) = 1 ∧
    get_channel (insert_channel (insert_channel [] (exChild 1 10)) (exChild 9 10))
        5 10 = some (exChild 9 10) := by
  have h0 : dbWellFormed ([] : ChannelDB) := by
    intro g c
    simp
  have h1 := C6_insert_upserts [] (exChild 1 10) h0
  have h2 := C6_insert_upserts (insert_channel [] (exChild 1 10)) (exChild 9 10)
    h1.2.2
  exact ⟨h1.1, h2.1, by decide⟩

theorem structure_unstructure (channel : ManagedChannel) :
    structureChannel (unstructureChannel channel) = some channel := by
  obtain ⟨g, c, cfg⟩ := channel
  obtain ⟨t, ty, sp, num, hold⟩ := cfg
  cases ty <;> rfl

/-- **C10**: store round-trip — after `insert_channel`, a `get_channel` with
the record's identity succeeds and returns a record equal to the one
inserted: the unstructure-on-insert / structure-on-get cycle preserves every
field, the `channel_type` tag and the optional `spawner`, `channel_number`
and `hold_until` fields included. -/
theorem C10_store_roundtrip (db : ChannelDB) (channel : ManagedChannel)
    (hwf : dbWellFormed db) :
    get_channel (insert_channel db channel) channel.guild_id
      channel.channel_id = some channel := by
  obtain ⟨base, heq, hzero, hsub⟩ := insert_channel_split db channel hwf
  unfold get_channel
  rw [heq, List.find?_append]
  have hnone : base.find? (identQuery channel.guild_id channel.channel_id) =
      none := by
    rw [List.find?_eq_none]
    intro x hx
    simp [List.countP_eq_zero.mp hzero x hx]
  rw [hnone]
  simp [List.find?, identQuery_unstructure_self, structure_unstructure]

/-- Witness for C10 on a concrete CHILD record carrying every optional field:
inserted into the empty store, `get_channel (1, 2)` returns it unchanged. -/
theorem C10_store_roundtrip_witness :
    get_channel (insert_channel [] (chChildHold (some 50))) 1 2 =
      some (chChildHold (some 50)) := by
  have h0 : dbWellFormed ([] : ChannelDB) := by
    intro g c
    simp
  exact C10_store_roundtrip [] (chChildHold (some 50)) h0

/-- **C2** (counterexample): for an empty, expired CHILD whose platform
delete reports the resource already gone (`NotFound`), the reconciliation
pass (`update_task`) does *not* remove the record — `suppress(NotFound,
KeyError)` aborts the block before `remove_channel` runs — while the leave
path removes it, so the claim's "already-gone is treated as success and the
record is then removed" fails on the reconciliation path. -/
theorem C2_destroy_counterexample :
    update_task_step envDestroyNotFound = Except.ok { recordRemoved := false } ∧
    on_channel_leave_step envDestroyNotFound =
      Except.ok { recordRemoved := true } := by
  exact ⟨rfl, rfl⟩

/-- **C2** (amended): for every CHILD record, in the leave path an empty
expired child has its deletion requested and — a `NotFound` tolerated — its
record removed, an empty unexpired child is untouched, and non-CHILD records
(IMPORT included) are never auto-destroyed; in the reconciliation pass an
empty expired child's record is removed when the delete succeeds but is
*kept* when the delete reports already-gone, and an unexpired empty child or
an IMPORT is never deleted nor dropped (though it may still be renamed). -/
theorem C2_destroy_on_empty_amended (e : RecordEnv) :
    (e.channel_type = ManagedChannelType.CHILD → e.membersEmpty = true →
      e.expired = true → e.deleteOutcome = POutcome.ok →
      on_channel_leave_step e =
        Except.ok { recordRemoved := true, resourceDeleted := true }) ∧
    (e.channel_type = ManagedChannelType.CHILD → e.membersEmpty = true →
      e.expired = true → e.deleteOutcome = POutcome.notFound →
      on_channel_leave_step e = Except.ok { recordRemoved := true }) ∧
    (e.channel_type = ManagedChannelType.CHILD → e.membersEmpty = true →
      e.expired = false → on_channel_leave_step e = Except.ok {}) ∧
    (e.channel_type = ManagedChannelType.IMPORT →
      on_channel_leave_step e = Except.ok {}) ∧
    (e.guildExists = true → e.channelExists = true →
      e.channel_type = ManagedChannelType.CHILD → e.membersEmpty = true →
      e.expired = true → e.deleteOutcome = POutcome.ok →
      update_task_step e =
        Except.ok { recordRemoved := true, resourceDeleted := true }) ∧
    (e.guildExists = true → e.channelExists = true →
      e.channel_type = ManagedChannelType.CHILD → e.membersEmpty = true →
      e.expired = true → e.deleteOutcome = POutcome.notFound →
      update_task_step e = Except.ok { recordRemoved := false }) ∧
    (e.guildExists = true → e.channelExists = true →
      e.channel_type = ManagedChannelType.CHILD → e.membersEmpty = true →
      e.expired = false → ∀ eff, update_task_step e = Except.ok eff →
      eff.resourceDeleted = false ∧ eff.recordRemoved = false) ∧
    (e.guildExists = true → e.channelExists = true →
      e.channel_type = ManagedChannelType.IMPORT →
      ∀ eff, update_task_step e = Except.ok eff →
      eff.resourceDeleted = false ∧ eff.recordRemoved = false) := by
  obtain ⟨ge, ce, ty, me, ex, dout, rn, rout, sout⟩ := e
  refine ⟨?_, ?_, ?_, ?_, ?_, ?_, ?_, ?_⟩
  · intro h1 h2 h3 h4
    simp only at h1 h2 h3 h4
    subst h1 h2 h3 h4
    rfl
  · intro h1 h2 h3 h4
    simp only at h1 h2 h3 h4
    subst h1 h2 h3 h4
    rfl
  · intro h1 h2 h3
    simp only at h1 h2 h3
    subst h1 h2 h3
    rfl
  · intro h1
    simp only at h1
    subst h1
    rfl
  · intro h0 h0' h1 h2 h3 h4
    simp only at h0 h0' h1 h2 h3 h4
    subst h0 h0' h1 h2 h3 h4
    rfl
  · intro h0 h0' h1 h2 h3 h4
    simp only at h0 h0' h1 h2 h3 h4
    subst h0 h0' h1 h2 h3 h4
    rfl
  · intro h0 h0' h1 h2 h3 eff heq
    simp only at h0 h0' h1 h2 h3
    subst h0 h0' h1 h2 h3
    cases rn <;> cases rout <;>
      simp_all [update_task_step] <;>
      simp [← heq]
  · intro h0 h0' h1 eff heq
    simp only at h0 h0' h1
    subst h0 h0' h1
    cases me <;> cases rn <;> cases rout <;> cases ex <;> cases dout <;>
      simp_all [update_task_step] <;>
      simp [← heq]

/-- Witness for the amended C2 at the concrete already-gone situation: the
reconciliation pass keeps the record while the leave path drops it. -/
theorem C2_destroy_on_empty_amended_witness :
    update_task_step envDestroyNotFound = Except.ok { recordRemoved := false } ∧
    on_channel_leave_step envDestroyNotFound =
      Except.ok { recordRemoved := true } :=
  ⟨(C2_destroy_on_empty_amended envDestroyNotFound).2.2.2.2.2.1 rfl rfl rfl rfl
      rfl rfl,
   (C2_destroy_on_empty_amended envDestroyNotFound).2.1 rfl rfl rfl rfl⟩

/-- **C7**: the occupancy-change rename path does compute the display game by
majority vote with first-encounter tie-break and `"General"` default, but
`spawn_channel`'s own loop (marked `FIXME: Use all members` in the source)
reads only `members[0]` and keeps its *last* `Game` activity: for occupants
playing A, B, B the vote says "B" while the spawn path names the channel
after "A". -/
theorem C7_spawn_game_diverges_from_vote :
    game_status_from_members
      [playingMember "A", playingMember "B", playingMember "B"] = "B" ∧
    spawnGameStatus
      [playingMember "A", playingMember "B", playingMember "B"] = "A" ∧
    ("A" : String) ≠ "B" ∧
    game_status_from_members [] = "General" ∧
    game_status_from_members [playingMember "A", playingMember "B"] = "A" := by
  exact ⟨rfl, rfl, by decide, rfl, rfl⟩

/-- **C8** (counterexample): a rename failure on the first record of a
reconciliation pass propagates out of `update_task`'s loop — the second,
perfectly healthy record is never processed, though it is processed when the
failing record is absent. -/
theorem C8_failure_aborts_pass_counterexample :
    (update_task_pass [envRenameFail, envBenign]).1.length = 0 ∧
    (update_task_pass [envRenameFail, envBenign]).2 = true ∧
    (update_task_pass [envBenign]).1.length = 1 ∧
    (update_task_pass [envBenign]).2 = false := by
  exact ⟨rfl, rfl, rfl, rfl⟩

/-- **C8** (amended): the reconciliation pass is *not* failure-isolated: it
processes records in order up to the first record whose processing raises an
uncaught platform failure (anything beyond the suppressed `NotFound`/
`KeyError` of the destroy branch and the missing-guild/missing-channel
drops), then aborts, leaving every later record unprocessed in that pass. -/
theorem C8_pass_aborts_at_first_failure (pre post : List RecordEnv)
    (e : RecordEnv)
    (hpre : ∀ x ∈ pre, (update_task_step x).isOk = true)
    (he : (update_task_step e).isOk = false) :
    (update_task_pass (pre ++ e :: post)).1.length = pre.length ∧
    (update_task_pass (pre ++ e :: post)).2 = true := by
  induction pre with
  | nil =>
    cases hstep : update_task_step e with
    | ok v =>
      rw [hstep] at he
      simp [Except.isOk, Except.toBool] at he
    | error err =>
      simp [update_task_pass, hstep]
  | cons a t ih =>
    have ha := hpre a (by simp)
    cases hstep : update_task_step a with
    | error err =>
      rw [hstep] at ha
      simp [Except.isOk, Except.toBool] at ha
    | ok v =>
      have ht := ih fun x hx => hpre x (by simp [hx])
      simp only [List.cons_append, update_task_pass, hstep]
      simp [ht.1, ht.2]

/-- Witness for the amended C8: with a tolerated already-gone destroy first,
then a failing rename, then a healthy record, the pass processes exactly the
first record and aborts. -/
theorem C8_pass_aborts_at_first_failure_witness :
    (update_task_pass [envDestroyNotFound, envRenameFail, envBenign]).1.length
      = 1 ∧
    (update_task_pass [envDestroyNotFound, envRenameFail, envBenign]).2 =
      true :=
  C8_pass_aborts_at_first_failure [envDestroyNotFound] [envBenign]
    envRenameFail (by decide) (by decide)

set_option maxRecDepth 8192

/-- **C9** (counterexample): the `lru_cache(maxsize=64)` lock factory does
not serialize two transitions on one identity across cache churn.  Task A
obtains lock object 0 for identity (1,1); 64 other identities call `lock`
while A awaits a platform call; task B then obtains a *fresh* lock object 65
for the same identity (1,1), and the interleaving A-acquire, B-acquire puts
both tasks inside their critical sections at once — both may mutate the
store for (1,1) unserialized. -/
theorem C9_lock_eviction_counterexample :
    (lockCall initLockCache (1, 1)).2 = 0 ∧
    (lockCall (lockCalls (lockCall initLockCache (1, 1)).1 sixtyFourOtherKeys)
      (1, 1)).2 = 65 ∧
    overlapRun 0 65 initSched [TaskId.A, TaskId.B] = true := by
  refine ⟨rfl, ?_, rfl⟩
  decide

theorem lockInv_init (l : Nat) : lockInv l initSched := by
  refine ⟨rfl, rfl, ?_, ?_⟩ <;> simp [initSched]

theorem lockInv_step (l : Nat) (s : SchedState) (t : TaskId)
    (h : lockInv l s) : lockInv l (stepTask l l s t) := by
  obtain ⟨pa, pb, held⟩ := s
  obtain ⟨hheld, hnot, ha, hb⟩ := h
  simp only at hheld hnot ha hb
  cases t
  all_goals
    interval_cases pa <;> interval_cases pb <;>
      simp_all [stepTask, inCS, lockInv]

theorem lockInv_overlapRun (l : Nat) (trace : List TaskId) :
    ∀ s, lockInv l s → overlapRun l l s trace = false := by
  induction trace with
  | nil =>
    intro s hs
    simpa [overlapRun, bothInCS] using hs.2.1
  | cons t ts ih =>
    intro s hs
    have h1 : bothInCS s = false := hs.2.1
    have h2 := ih (stepTask l l s t) (lockInv_step l s t hs)
    simp [overlapRun, h1, h2]

/-- **C9** (amended): serialization does hold whenever the two transitions
guard with the *same* lock object — under every schedule, two tasks that
acquire one shared lock are never simultaneously inside their critical
sections; the guarantee is lost only when LRU eviction hands the second
transition a fresh lock for the same identity. -/
theorem C9_same_lock_mutual_exclusion (l : Nat) (trace : List TaskId) :
    overlapRun l l initSched trace = false :=
  lockInv_overlapRun l trace initSched (lockInv_init l)

end ChannelBot

